import Mathlib

/-!
Shallow embedding of `custom_reg_form/management/commands/email_opt_in_list_to_s3.py`.

The module exports selected user attributes to a CSV uploaded to S3.  We embed:
  * `get_registration_ext_model` (settings-driven resolution of the extension model),
  * `infer_field_model` (field-to-schema resolution in a fixed priority order),
  * `construct_query` (building the SQL query string),
  * `Command.handle` (the fetch/write/upload run), as an event trace plus an
    optional uncaught exception.

External effects (Django settings, `importlib`, the DB cursor, boto3) are modelled
as explicit data supplied in an environment: the settings values, an import map
from dotted paths to outcomes, the list of batches the cursor yields, and the
outcome of the upload call.
-/

/-- A Django model class, as far as this command inspects it:
its `_meta.db_table` and the set of attribute names (`hasattr`). -/
structure Model where
  db_table : String
  attrs : List String
deriving DecidableEq, Repr

/-- A class reachable through `get_model_class`: either a plain model class, or a
form class.  A form records whether it is a `ModelForm` subclass (`issubclass`
check at line 54) and its `Meta.model`. -/
inductive Cls where
  | model : Model → Cls
  | form : Bool → Model → Cls
deriving DecidableEq, Repr

/-- The check `hasattr(cls, field)`.  Only model classes carry exported field attributes in
this embedding; the command never reaches `hasattr` on a form class on the
configurations the claims quantify over. -/
def Cls.hasField : Cls → String → Bool
  | .model m, f => m.attrs.contains f
  | .form _ _, _ => false

/-- Uncaught Python exceptions the embedded code can raise. -/
inductive Exc where
  | runtimeError
  | typeError
  | importError
  | attrErrorExc
  | fieldError (field : String)
  | settingError (name : String)
  | uploadError
deriving DecidableEq, Repr

/-- Outcome of `get_model_class`s dynamic import of one dotted path:
the attribute resolves to a class, `getattr` raises `AttributeError`
(caught, line 46), or `importlib.import_module` raises (not caught). -/
inductive ImportResult where
  | cls : Cls → ImportResult
  | attrError : ImportResult
  | importError : ImportResult
deriving Repr

/-- The ambient configuration: Django settings and the import machinery, plus the
two statically known schemas (`get_user_model()` and `UserProfile`). -/
structure Env where
  regExtModelSetting : Option String
  regExtFormSetting : Option String
  importMap : String → ImportResult
  userModel : Model
  userProfile : Model
  settingsAttr : String → Option String

/-- Inner helper `get_model_class` (lines 41-47): import the module and take the
final attribute; an `AttributeError` is caught (a warning is logged) and `None`
is returned, while an import failure propagates. -/
def get_model_class (env : Env) (path : String) : Except Exc (Option Cls) :=
  match env.importMap path with
  | .cls c => .ok (some c)
  | .attrError => .ok none
  | .importError => .error .importError

/-- Embeds `get_registration_ext_model` (lines 27-57): if `REGISTRATION_EXTENSION_MODEL`
is set, return `get_model_class` of it (even when that is `None`); otherwise if
`REGISTRATION_EXTENSION_FORM` is set, import it, and when it is a `ModelForm`
subclass return its `Meta.model` (`issubclass(None, ModelForm)` raises
`TypeError`); otherwise raise `RuntimeError`. -/
def get_registration_ext_model (env : Env) : Except Exc (Option Cls) :=
  match env.regExtModelSetting with
  | some path => get_model_class env path
  | none =>
    match env.regExtFormSetting with
    | some path =>
      match get_model_class env path with
      | .error e => .error e
      | .ok (some (Cls.form true m)) => .ok (some (Cls.model m))
      | .ok (some (Cls.form false _)) => .error .runtimeError
      | .ok (some (Cls.model _)) => .error .runtimeError
      | .ok none => .error .typeError
    | none => .error .runtimeError

/-- Embeds `infer_field_model` (lines 59-76): check the user model, then `UserProfile`,
then the registration-extension model; raise when no schema owns the field.
When `get_registration_ext_model` returns `None`, `hasattr(None, field)` is
false for field names, so the final `Exception` is raised. -/
def infer_field_model (env : Env) (field : String) : Except Exc Cls :=
  if env.userModel.attrs.contains field then .ok (.model env.userModel)
  else if env.userProfile.attrs.contains field then .ok (.model env.userProfile)
  else
    match get_registration_ext_model env with
    | .error e => .error e
    | .ok (some c) => if c.hasField field then .ok c else .error (.fieldError field)
    | .ok none => .error (.fieldError field)

/-- The access `get_registration_ext_model()._meta.db_table` (line 82): on a `None` result the
attribute access raises `AttributeError`; a plain `ModelForm` class has no
`db_table` on its meta either. -/
def extDbTable (env : Env) : Except Exc String :=
  match get_registration_ext_model env with
  | .error e => .error e
  | .ok (some (Cls.model m)) => .ok m.db_table
  | .ok (some (Cls.form _ _)) => .error .attrErrorExc
  | .ok none => .error .attrErrorExc

/-- One element of the select-list comprehension (line 85):
`".".join([infer_field_model(field)._meta.db_table, field])`. -/
def fieldRef (env : Env) (field : String) : Except Exc String :=
  match infer_field_model env field with
  | .error e => .error e
  | .ok (.model m) => .ok (m.db_table ++ "." ++ field)
  | .ok (.form _ _) => .error .attrErrorExc

/-- The list comprehension over `fields` (lines 84-87): left to right, first
raised exception propagates. -/
def fieldRefList (env : Env) : List String → Except Exc (List String)
  | [] => .ok []
  | f :: fs =>
    match fieldRef env f with
    | .error e => .error e
    | .ok s =>
      match fieldRefList env fs with
      | .error e => .error e
      | .ok ss => .ok (s :: ss)

/-- The literal query template of lines 89-99, with the three interpolated
values.  Whitespace (including the trailing spaces after `SELECT` and after the
user table) reproduces the Python triple-quoted string exactly. -/
def mkQuery (field_names user_table reg_ext_table : String) : String :=
  "\n        SELECT \n            " ++ field_names ++
  "\n        FROM " ++ user_table ++
  " \n            LEFT JOIN " ++ reg_ext_table ++ " ON " ++ reg_ext_table ++
  ".user_id = auth_user.id\n            JOIN auth_userprofile ON auth_userprofile.user_id = auth_user.id;\n        "

/-- Embeds `construct_query` (lines 79-101): resolve the extension table, read the user
table, build the comma-separated select list, and interpolate the template. -/
def construct_query (env : Env) (fields : List String) : Except Exc String :=
  match extDbTable env with
  | .error e => .error e
  | .ok reg_ext_table =>
    match fieldRefList env fields with
    | .error e => .error e
    | .ok parts =>
      .ok (mkQuery (String.intercalate ", " parts) env.userModel.db_table reg_ext_table)

/-! ## The export run (`Command.handle`, lines 196-251) -/

/-- A database row: one optional string per selected field (`None` is `none`). -/
abbrev Row := List (Option String)

/-- The test `None in row` (line 218). -/
def rowHasNull (r : Row) : Bool := r.contains none

/-- The row filter of lines 217-221: a row is written unless skipping is enabled
and the row contains a null. -/
def keepRow (skipWhenNull : Bool) (r : Row) : Bool := !(skipWhenNull && rowHasNull r)

/-- The fetch-and-write loop (lines 209-221): `fetchmany` yields the batches in
order; the first empty batch terminates the loop; each surviving row of a
nonempty batch is written in order. -/
def fetchLoop (skipWhenNull : Bool) : List (List Row) → List Row
  | [] => []
  | [] :: _ => []
  | (r :: rs) :: rest => (r :: rs).filter (keepRow skipWhenNull) ++ fetchLoop skipWhenNull rest

/-- Whether `csv.writer` must quote a field under the default `QUOTE_MINIMAL`
dialect: it contains the delimiter, the quote char, or a CR/LF. -/
def csvNeedsQuote (s : String) : Bool :=
  s.any fun c => c = ',' || c = '"' || c = '\r' || c = '\n'

/-- Render one string cell, doubling embedded quote chars when quoting. -/
def csvQuote (s : String) : String :=
  if csvNeedsQuote s then "\"" ++ s.replace "\"" "\"\"" ++ "\"" else s

/-- Render one cell: `csv.writer` writes `None` as the empty string. -/
def csvField : Option String → String
  | none => ""
  | some s => csvQuote s

/-- One `writerow` call: comma-separated cells plus the default `\r\n`
line terminator. -/
def csvRecord (r : Row) : String :=
  String.intercalate "," (r.map csvField) ++ "\r\n"

/-- The full text written to the sink: the header record for the requested field
names (line 207) followed by one record per non-skipped fetched row. -/
def exportCsv (fields : List String) (skipWhenNull : Bool)
    (batches : List (List Row)) : String :=
  csvRecord (fields.map some) ++ String.join ((fetchLoop skipWhenNull batches).map csvRecord)

/-- Observable steps of one run of `handle`, in program order. -/
inductive Event where
  | openCursor
  | execQuery (q : String)
  | writeHeader (fields : List String)
  | writeRow (r : Row)
  | closeCursor
  | seekStart
  | openSession
  | uploadAttempt
  | logCredentialsError
  | closeText
  | closeBinary
deriving DecidableEq, Repr

/-- Outcome of the `put_object` call (lines 242-248): success, a
`NoCredentialsError` (caught and logged), or any other exception (uncaught). -/
inductive UploadOutcome where
  | success
  | noCredentials
  | otherFailure
deriving DecidableEq, Repr

/-- The command-line options of `add_arguments` that `handle` reads. -/
structure Opts where
  fields : List String
  skip_when_null : Bool
  use_temp_file : Bool
  aws_access_key_setting : Option String
  aws_secret_key_setting : Option String
  aws_profile : Option String
  s3_bucket_name : String
  s3_object_name : String

/-- The external world one run observes: the configuration, the batches the
cursor will yield, and how the upload call behaves. -/
structure World where
  env : Env
  batches : List (List Row)
  uploadOutcome : UploadOutcome

/-- The lookup `getattr(settings, options[...])` for a credential setting (lines 226-232):
skipped when the option is absent, `AttributeError` when the named setting does
not exist. -/
def resolveSetting (env : Env) : Option String → Except Exc (Option String)
  | none => .ok none
  | some name =>
    match env.settingsAttr name with
    | some v => .ok (some v)
    | none => .error (.settingError name)

/-- Embeds `Command.handle` (lines 196-251) as an event trace plus the uncaught
exception, if any.  The cursor is opened first; `construct_query` runs before
`cursor.execute`; the sink and header exist only after a successful execute;
the two `close` calls run only when control reaches line 250, i.e. on success
or after a caught `NoCredentialsError`. -/
def handle (w : World) (opts : Opts) : List Event × Option Exc :=
  match construct_query w.env opts.fields with
  | .error e => ([Event.openCursor], some e)
  | .ok q =>
    let written := fetchLoop opts.skip_when_null w.batches
    let evs := Event.openCursor :: Event.execQuery q :: Event.writeHeader opts.fields ::
      (written.map Event.writeRow ++ [Event.closeCursor, Event.seekStart])
    match resolveSetting w.env opts.aws_access_key_setting with
    | .error e => (evs, some e)
    | .ok _ =>
      match resolveSetting w.env opts.aws_secret_key_setting with
      | .error e => (evs, some e)
      | .ok _ =>
        let evs := evs ++ [Event.openSession, Event.uploadAttempt]
        match w.uploadOutcome with
        | .success => (evs ++ [Event.closeText, Event.closeBinary], none)
        | .noCredentials =>
          (evs ++ [Event.logCredentialsError, Event.closeText, Event.closeBinary], none)
        | .otherFailure => (evs, some .uploadError)

/-! ## Helper lemmas -/

theorem length_filter_add_length_filter_not {α : Type} (p : α → Bool) (l : List α) :
    (l.filter p).length + (l.filter fun x => !p x).length = l.length := by
  induction l with
  | nil => simp
  | cons x xs ih =>
    cases hx : p x <;> simp [List.filter_cons, hx] <;> omega

theorem fetchLoop_eq_filter_join (skip : Bool) :
    ∀ batches : List (List Row), (∀ b ∈ batches, b ≠ []) →
      fetchLoop skip batches = batches.flatten.filter (keepRow skip)
  | [], _ => rfl
  | [] :: _, h => absurd rfl (h [] (List.mem_cons_self _ _))
  | (r :: rs) :: rest, h => by
    have ih := fetchLoop_eq_filter_join skip rest fun x hx => h x (List.mem_cons_of_mem _ hx)
    simp only [fetchLoop, List.flatten_cons, List.filter_append, ih]

theorem keepRow_true (r : Row) : keepRow true r = !rowHasNull r := by
  simp [keepRow]

theorem keepRow_false (r : Row) : keepRow false r = true := by
  simp [keepRow]

/-! ## Concrete instances used by witnesses -/

/-- The `auth_user` model with a few attributes. -/
def userM : Model := ⟨"auth_user", ["id", "username", "email"]⟩

/-- The `auth_userprofile` model. -/
def profileM : Model := ⟨"auth_userprofile", ["user_id", "name", "year_of_birth"]⟩

/-- The `ExtraInfo` registration-extension model of `models.py`. -/
def extM : Model := ⟨"custom_reg_form_extrainfo", ["user_id", "allow_marketing_emails"]⟩

/-- A configuration where `REGISTRATION_EXTENSION_MODEL` is set and imports. -/
def envOk : Env :=
  { regExtModelSetting := some "custom_reg_form.models.ExtraInfo"
    regExtFormSetting := none
    importMap := fun p =>
      if p = "custom_reg_form.models.ExtraInfo" then .cls (.model extM) else .importError
    userModel := userM
    userProfile := profileM
    settingsAttr := fun _ => none }

/-- Default options: two resolvable fields, skipping enabled, no credential settings. -/
def optsBase : Opts :=
  { fields := ["username", "allow_marketing_emails"]
    skip_when_null := true
    use_temp_file := false
    aws_access_key_setting := none
    aws_secret_key_setting := none
    aws_profile := none
    s3_bucket_name := "bucket"
    s3_object_name := "key" }

/-! ## Claim theorems -/

/-- C1: with null-row skipping enabled, the export loop writes, after the single
header record, exactly the fetched rows that contain no null, in fetch order:
the written rows are the null-free fetched rows, their count is N − K (N fetched
rows, K of them with a null), and the CSV text is the header record followed by
exactly those records.  The hypothesis states the cursor contract that
`fetchmany` returns an empty batch only at exhaustion. -/
theorem export_skip_enabled_counts (fields : List String) (batches : List (List Row))
    (hb : ∀ b ∈ batches, b ≠ []) :
    fetchLoop true batches = batches.flatten.filter (fun r => !rowHasNull r) ∧
    (fetchLoop true batches).length
      = batches.flatten.length - (batches.flatten.filter rowHasNull).length ∧
    exportCsv fields true batches
      = csvRecord (fields.map some)
        ++ String.join ((batches.flatten.filter (fun r => !rowHasNull r)).map csvRecord) := by
  have hfl : fetchLoop true batches = batches.flatten.filter (fun r => !rowHasNull r) := by
    rw [fetchLoop_eq_filter_join true batches hb]
    congr 1
  refine ⟨hfl, ?_, ?_⟩
  · rw [hfl]
    have := length_filter_add_length_filter_not rowHasNull batches.flatten
    omega
  · rw [exportCsv, hfl]

/-- C2: with null-row skipping disabled, no fetched row is discarded: the loop
writes all N fetched rows in order, the CSV text is the header record followed
by one record per fetched row, and a null cell is rendered as the empty field. -/
theorem export_no_skip_counts (fields : List String) (batches : List (List Row))
    (hb : ∀ b ∈ batches, b ≠ []) :
    fetchLoop false batches = batches.flatten ∧
    (fetchLoop false batches).length = batches.flatten.length ∧
    exportCsv fields false batches
      = csvRecord (fields.map some) ++ String.join (batches.flatten.map csvRecord) ∧
    csvField none = "" := by
  have hfl : fetchLoop false batches = batches.flatten := by
    rw [fetchLoop_eq_filter_join false batches hb]
    have h : keepRow false = fun _ => true := by
      funext r
      simp [keepRow]
    rw [h]
    exact List.filter_true _
  exact ⟨hfl, by rw [hfl], by rw [exportCsv, hfl], rfl⟩

/-- Witness for C1 at a concrete result set: two batches, three rows, one of
which contains a null; the skipped row is exactly the null one. -/
theorem export_skip_enabled_counts_witness :
    (∀ b ∈ [[[some "alice", none], [some "bob", some "1"]], [[some "eve", some "0"]]],
        b ≠ ([] : List Row)) ∧
    (fetchLoop true [[[some "alice", none], [some "bob", some "1"]], [[some "eve", some "0"]]]
      = [[[some "alice", none], [some "bob", some "1"]],
          [[some "eve", some "0"]]].flatten.filter (fun r => !rowHasNull r) ∧
     (fetchLoop true
        [[[some "alice", none], [some "bob", some "1"]], [[some "eve", some "0"]]]).length
      = [[[some "alice", none], [some "bob", some "1"]],
          [[some "eve", some "0"]]].flatten.length
        - ([[[some "alice", none], [some "bob", some "1"]],
            [[some "eve", some "0"]]].flatten.filter rowHasNull).length ∧
     exportCsv ["username", "opt_in"] true
        [[[some "alice", none], [some "bob", some "1"]], [[some "eve", some "0"]]]
      = csvRecord (["username", "opt_in"].map some)
        ++ String.join (([[[some "alice", none], [some "bob", some "1"]],
            [[some "eve", some "0"]]].flatten.filter
              (fun r => !rowHasNull r)).map csvRecord)) :=
  ⟨by decide,
   export_skip_enabled_counts ["username", "opt_in"]
     [[[some "alice", none], [some "bob", some "1"]], [[some "eve", some "0"]]] (by decide)⟩

/-- Witness for C2 at the same concrete result set, with skipping disabled. -/
theorem export_no_skip_counts_witness :
    (∀ b ∈ [[[some "alice", none], [some "bob", some "1"]], [[some "eve", some "0"]]],
        b ≠ ([] : List Row)) ∧
    (fetchLoop false [[[some "alice", none], [some "bob", some "1"]], [[some "eve", some "0"]]]
      = [[[some "alice", none], [some "bob", some "1"]], [[some "eve", some "0"]]].flatten ∧
     (fetchLoop false
        [[[some "alice", none], [some "bob", some "1"]], [[some "eve", some "0"]]]).length
      = [[[some "alice", none], [some "bob", some "1"]],
          [[some "eve", some "0"]]].flatten.length ∧
     exportCsv ["username", "opt_in"] false
        [[[some "alice", none], [some "bob", some "1"]], [[some "eve", some "0"]]]
      = csvRecord (["username", "opt_in"].map some)
        ++ String.join ([[[some "alice", none], [some "bob", some "1"]],
            [[some "eve", some "0"]]].flatten.map csvRecord) ∧
     csvField none = "") :=
  ⟨by decide,
   export_no_skip_counts ["username", "opt_in"]
     [[[some "alice", none], [some "bob", some "1"]], [[some "eve", some "0"]]] (by decide)⟩

/-- C4: `infer_field_model` checks the user model first, then `UserProfile`, then
the registration-extension model, returning the first schema that owns the
field; a field owned by a higher-priority schema resolves there no matter what
the lower-priority schemas contain. -/
theorem infer_field_model_priority (env : Env) (f : String) :
    (env.userModel.attrs.contains f = true →
      infer_field_model env f = .ok (.model env.userModel)) ∧
    (env.userModel.attrs.contains f = false →
      env.userProfile.attrs.contains f = true →
      infer_field_model env f = .ok (.model env.userProfile)) ∧
    (∀ c : Cls, env.userModel.attrs.contains f = false →
      env.userProfile.attrs.contains f = false →
      get_registration_ext_model env = .ok (some c) →
      c.hasField f = true →
      infer_field_model env f = .ok c) := by
  refine ⟨fun h1 => ?_, fun h1 h2 => ?_, fun c h1 h2 h3 h4 => ?_⟩
  · have h1m : f ∈ env.userModel.attrs := by simpa using h1
    simp [infer_field_model, h1m]
  · have h1m : f ∉ env.userModel.attrs := by simpa using h1
    have h2m : f ∈ env.userProfile.attrs := by simpa using h2
    simp [infer_field_model, h1m, h2m]
  · have h1m : f ∉ env.userModel.attrs := by simpa using h1
    have h2m : f ∉ env.userProfile.attrs := by simpa using h2
    simp [infer_field_model, h1m, h2m, h3, h4]

/-- Witness for C4: in `envOk`, `username` resolves to the user model, `name` to
the profile, `allow_marketing_emails` to the extension model; the shadowed name
`user_id` (present on both the profile and the extension model) resolves to the
higher-priority profile schema. -/
theorem infer_field_model_priority_witness :
    infer_field_model envOk "username" = .ok (.model userM) ∧
    infer_field_model envOk "name" = .ok (.model profileM) ∧
    infer_field_model envOk "allow_marketing_emails" = .ok (.model extM) ∧
    infer_field_model envOk "user_id" = .ok (.model profileM) :=
  ⟨(infer_field_model_priority envOk "username").1 (by decide),
   (infer_field_model_priority envOk "name").2.1 (by decide) (by decide),
   (infer_field_model_priority envOk "allow_marketing_emails").2.2 (.model extM)
     (by decide) (by decide) rfl (by decide),
   (infer_field_model_priority envOk "user_id").2.1 (by decide) (by decide)⟩

/-- A configuration where `REGISTRATION_EXTENSION_MODEL` is set but the final
attribute of the dotted path does not exist, so `get_model_class` logs the
caught `AttributeError` and returns `None`. -/
def envModelAttrErr : Env :=
  { regExtModelSetting := some "custom_reg_form.models.Missing"
    regExtFormSetting := none
    importMap := fun _ => .attrError
    userModel := userM
    userProfile := profileM
    settingsAttr := fun _ => none }

/-- C6 counterexample: with the model path configured but its attribute lookup
failing, neither route yields a model class, yet resolution does NOT fail: it
returns `None` without raising, contradicting the claim that resolution always
fails fatally when no route yields a model class. -/
theorem get_reg_ext_attr_error_returns_none :
    get_registration_ext_model envModelAttrErr = .ok none ∧
    ∀ e : Exc, get_registration_ext_model envModelAttrErr ≠ .error e := by
  refine ⟨rfl, fun e h => ?_⟩
  rw [show get_registration_ext_model envModelAttrErr = .ok none from rfl] at h
  exact Except.noConfusion h

/-- C6 amended: resolution consults the configured model path first and, only
when that setting is absent, the configured form.  With neither setting it
fails with `RuntimeError`; with the form configured, a `ModelForm` subclass
yields its bound model while a non-`ModelForm` class fails with `RuntimeError`.
But when the model path is configured and its attribute lookup fails, resolution
returns no model class without raising (only a warning is logged). -/
theorem get_reg_ext_resolution_cases (env : Env) :
    (∀ path, env.regExtModelSetting = some path →
      get_registration_ext_model env = get_model_class env path) ∧
    (env.regExtModelSetting = none → env.regExtFormSetting = none →
      get_registration_ext_model env = .error .runtimeError) ∧
    (∀ path m, env.regExtModelSetting = none → env.regExtFormSetting = some path →
      env.importMap path = .cls (.form true m) →
      get_registration_ext_model env = .ok (some (.model m))) ∧
    (∀ path m, env.regExtModelSetting = none → env.regExtFormSetting = some path →
      env.importMap path = .cls (.form false m) →
      get_registration_ext_model env = .error .runtimeError) ∧
    (∀ path, env.regExtModelSetting = some path → env.importMap path = .attrError →
      get_registration_ext_model env = .ok none) := by
  refine ⟨fun path h => ?_, fun h1 h2 => ?_, fun path m h1 h2 h3 => ?_,
    fun path m h1 h2 h3 => ?_, fun path h1 h2 => ?_⟩
  · simp [get_registration_ext_model, h]
  · simp [get_registration_ext_model, h1, h2]
  · simp [get_registration_ext_model, get_model_class, h1, h2, h3]
  · simp [get_registration_ext_model, get_model_class, h1, h2, h3]
  · simp [get_registration_ext_model, get_model_class, h1, h2]

/-- A configuration with only `REGISTRATION_EXTENSION_FORM` set, importing to the
`ExtraInfoForm` of `forms.py` (a `ModelForm` bound to `ExtraInfo`). -/
def envFormOnly : Env :=
  { regExtModelSetting := none
    regExtFormSetting := some "custom_reg_form.forms.ExtraInfoForm"
    importMap := fun p =>
      if p = "custom_reg_form.forms.ExtraInfoForm" then .cls (.form true extM) else .importError
    userModel := userM
    userProfile := profileM
    settingsAttr := fun _ => none }

/-- A configuration with neither extension setting present. -/
def envNoExt : Env :=
  { regExtModelSetting := none
    regExtFormSetting := none
    importMap := fun _ => .importError
    userModel := userM
    userProfile := profileM
    settingsAttr := fun _ => none }

/-- Witness for the amended C6 at concrete configurations: the model-path route,
the unset-both fatal route, the form route, and the silent `None` route. -/
theorem get_reg_ext_resolution_cases_witness :
    get_registration_ext_model envOk = get_model_class envOk "custom_reg_form.models.ExtraInfo" ∧
    get_registration_ext_model envNoExt = .error .runtimeError ∧
    get_registration_ext_model envFormOnly = .ok (some (.model extM)) ∧
    get_registration_ext_model envModelAttrErr = .ok none :=
  ⟨(get_reg_ext_resolution_cases envOk).1 "custom_reg_form.models.ExtraInfo" rfl,
   (get_reg_ext_resolution_cases envNoExt).2.1 rfl rfl,
   (get_reg_ext_resolution_cases envFormOnly).2.2.1 "custom_reg_form.forms.ExtraInfoForm" extM
     rfl rfl (by simp [envFormOnly]),
   (get_reg_ext_resolution_cases envModelAttrErr).2.2.2.2 "custom_reg_form.models.Missing"
     rfl rfl⟩

/-- The qualified name a field contributes to the select list when it resolves
to a model: its owning table, a dot, and the field name. -/
def qualifiedName (env : Env) (f : String) : String :=
  match infer_field_model env f with
  | .ok (.model m) => m.db_table ++ "." ++ f
  | _ => ""

theorem fieldRef_of_model (env : Env) (f : String) (m : Model)
    (h : infer_field_model env f = .ok (.model m)) :
    fieldRef env f = .ok (qualifiedName env f) := by
  simp [fieldRef, qualifiedName, h]

theorem fieldRefList_eq_map (env : Env) :
    ∀ fields : List String,
      (∀ f ∈ fields, ∃ m : Model, infer_field_model env f = .ok (.model m)) →
      fieldRefList env fields = .ok (fields.map (qualifiedName env))
  | [], _ => rfl
  | f :: fs, h => by
    obtain ⟨m, hm⟩ := h f (List.mem_cons_self _ _)
    have ih := fieldRefList_eq_map env fs fun g hg => h g (List.mem_cons_of_mem _ hg)
    simp only [fieldRefList, fieldRef_of_model env f m hm, ih, List.map_cons]

theorem construct_query_eq (env : Env) (fields : List String) (et : String)
    (hext : extDbTable env = .ok et)
    (hres : ∀ f ∈ fields, ∃ m : Model, infer_field_model env f = .ok (.model m)) :
    construct_query env fields
      = .ok (mkQuery (String.intercalate ", " (fields.map (qualifiedName env)))
          env.userModel.db_table et) := by
  simp only [construct_query, hext, fieldRefList_eq_map env fields hres]

/-- C3: when every requested field resolves to one of the three schemas, the
select list of the produced query is exactly the requested fields, in the
requested order, each qualified by the table of its resolved owning schema;
a duplicated name contributes one entry per occurrence (the select list is a
per-occurrence map over the input list). -/
theorem select_list_matches_input_order (env : Env) (fields : List String) (et : String)
    (hext : extDbTable env = .ok et)
    (hres : ∀ f ∈ fields, ∃ m : Model, infer_field_model env f = .ok (.model m)) :
    construct_query env fields
      = .ok (mkQuery (String.intercalate ", " (fields.map (qualifiedName env)))
          env.userModel.db_table et) ∧
    (fields.map (qualifiedName env)).length = fields.length :=
  ⟨construct_query_eq env fields et hext hres, List.length_map _ _⟩

/-- Witness for C3 at a concrete field list containing a duplicate: both
occurrences of `username` appear, qualified, in input order. -/
theorem select_list_matches_input_order_witness :
    extDbTable envOk = .ok "custom_reg_form_extrainfo" ∧
    construct_query envOk ["username", "name", "username"]
      = .ok (mkQuery
          (String.intercalate ", "
            (["username", "name", "username"].map (qualifiedName envOk)))
          envOk.userModel.db_table "custom_reg_form_extrainfo") ∧
    (["username", "name", "username"].map (qualifiedName envOk)).length
      = (["username", "name", "username"] : List String).length ∧
    ["username", "name", "username"].map (qualifiedName envOk)
      = ["auth_user.username", "auth_userprofile.name", "auth_user.username"] := by
  have h := select_list_matches_input_order envOk ["username", "name", "username"]
    "custom_reg_form_extrainfo" rfl
    (by
      intro f hf
      simp only [List.mem_cons, List.not_mem_nil, or_false] at hf
      rcases hf with rfl | rfl | rfl
      · exact ⟨userM, rfl⟩
      · exact ⟨profileM, rfl⟩
      · exact ⟨userM, rfl⟩)
  exact ⟨rfl, h.1, h.2, rfl⟩

/-- C9: for a resolvable field list, the produced query has the fixed shape of
lines 89-99: a select list, the configured user table in the `FROM` clause, a
`LEFT JOIN` of the extension table on the identity key, and an inner `JOIN` of
the profile table on the identity key. -/
theorem query_fixed_shape (env : Env) (fields : List String) (et : String)
    (hext : extDbTable env = .ok et)
    (hres : ∀ f ∈ fields, ∃ m : Model, infer_field_model env f = .ok (.model m)) :
    ∃ sel : String, construct_query env fields
      = .ok ("\n        SELECT \n            " ++ sel ++
          "\n        FROM " ++ env.userModel.db_table ++
          " \n            LEFT JOIN " ++ et ++ " ON " ++ et ++
          ".user_id = auth_user.id\n            JOIN auth_userprofile ON auth_userprofile.user_id = auth_user.id;\n        ") :=
  ⟨String.intercalate ", " (fields.map (qualifiedName env)),
    construct_query_eq env fields et hext hres⟩

/-- Witness for C9 at a concrete field list. -/
theorem query_fixed_shape_witness :
    extDbTable envOk = .ok "custom_reg_form_extrainfo" ∧
    ∃ sel : String, construct_query envOk ["username", "allow_marketing_emails"]
      = .ok ("\n        SELECT \n            " ++ sel ++
          "\n        FROM " ++ envOk.userModel.db_table ++
          " \n            LEFT JOIN " ++ "custom_reg_form_extrainfo" ++ " ON " ++
          "custom_reg_form_extrainfo" ++
          ".user_id = auth_user.id\n            JOIN auth_userprofile ON auth_userprofile.user_id = auth_user.id;\n        ") :=
  ⟨rfl,
   query_fixed_shape envOk ["username", "allow_marketing_emails"]
     "custom_reg_form_extrainfo" rfl
     (by
       intro f hf
       simp only [List.mem_cons, List.not_mem_nil, or_false] at hf
       rcases hf with rfl | rfl
       · exact ⟨userM, rfl⟩
       · exact ⟨extM, rfl⟩)⟩

/-- C10: the join conditions of every produced query are the literal strings
`.user_id = auth_user.id` and
`JOIN auth_userprofile ON auth_userprofile.user_id = auth_user.id`: the whole
text after the extension table name is a constant independent of the configured
user model, while the `FROM` clause interpolates the configured user table; so
the joins agree with the `FROM` clause only when that table is `auth_user`. -/
theorem join_conditions_hardcoded (env : Env) (fields : List String) (et : String)
    (hext : extDbTable env = .ok et)
    (hres : ∀ f ∈ fields, ∃ m : Model, infer_field_model env f = .ok (.model m)) :
    ∃ pre : String,
      construct_query env fields
        = .ok (pre ++
            ".user_id = auth_user.id\n            JOIN auth_userprofile ON auth_userprofile.user_id = auth_user.id;\n        ") ∧
      pre = "\n        SELECT \n            " ++
          String.intercalate ", " (fields.map (qualifiedName env)) ++
          "\n        FROM " ++ env.userModel.db_table ++
          " \n            LEFT JOIN " ++ et ++ " ON " ++ et :=
  ⟨"\n        SELECT \n            " ++
      String.intercalate ", " (fields.map (qualifiedName env)) ++
      "\n        FROM " ++ env.userModel.db_table ++
      " \n            LEFT JOIN " ++ et ++ " ON " ++ et,
   construct_query_eq env fields et hext hres, rfl⟩

/-- A configuration whose user model has a table NOT named `auth_user`. -/
def envCustomUser : Env :=
  { regExtModelSetting := some "custom_reg_form.models.ExtraInfo"
    regExtFormSetting := none
    importMap := fun p =>
      if p = "custom_reg_form.models.ExtraInfo" then .cls (.model extM) else .importError
    userModel := ⟨"custom_users", ["id", "username", "email"]⟩
    userProfile := profileM
    settingsAttr := fun _ => none }

/-- Witness for C10 at a configuration whose user table is `custom_users`: the
`FROM` clause names `custom_users`, yet the join conditions still reference the
literal `auth_user` and `auth_userprofile`. -/
theorem join_conditions_hardcoded_witness :
    extDbTable envCustomUser = .ok "custom_reg_form_extrainfo" ∧
    envCustomUser.userModel.db_table = "custom_users" ∧
    ∃ pre : String,
      construct_query envCustomUser ["name"]
        = .ok (pre ++
            ".user_id = auth_user.id\n            JOIN auth_userprofile ON auth_userprofile.user_id = auth_user.id;\n        ") ∧
      pre = "\n        SELECT \n            " ++
          String.intercalate ", " (["name"].map (qualifiedName envCustomUser)) ++
          "\n        FROM " ++ envCustomUser.userModel.db_table ++
          " \n            LEFT JOIN " ++ "custom_reg_form_extrainfo" ++ " ON " ++
          "custom_reg_form_extrainfo" :=
  ⟨rfl, rfl,
   join_conditions_hardcoded envCustomUser ["name"] "custom_reg_form_extrainfo" rfl
     (by
       intro f hf
       simp only [List.mem_cons, List.not_mem_nil, or_false] at hf
       rcases hf with rfl
       exact ⟨profileM, rfl⟩)⟩

/-! ## C5: an unresolvable field aborts before the query executes -/

theorem fieldRefList_error_of_mem (env : Env) (f : String)
    (he : ∃ e, fieldRef env f = .error e) :
    ∀ fields : List String, f ∈ fields → ∃ e, fieldRefList env fields = .error e
  | [], hf => absurd hf (List.not_mem_nil f)
  | g :: gs, hf => by
    rcases List.mem_cons.mp hf with rfl | hmem
    · obtain ⟨e, he⟩ := he
      exact ⟨e, by simp [fieldRefList, he]⟩
    · match hg : fieldRef env g with
      | .error e => exact ⟨e, by simp [fieldRefList, hg]⟩
      | .ok s =>
        obtain ⟨e, htail⟩ := fieldRefList_error_of_mem env f he gs hmem
        exact ⟨e, by simp [fieldRefList, hg, htail]⟩

theorem construct_query_error_of_unresolvable (env : Env) (fields : List String)
    (f : String) (c : Cls)
    (hf : f ∈ fields)
    (hu : env.userModel.attrs.contains f = false)
    (hp : env.userProfile.attrs.contains f = false)
    (hext : get_registration_ext_model env = .ok (some c))
    (hc : c.hasField f = false) :
    ∃ e, construct_query env fields = .error e := by
  have hum : f ∉ env.userModel.attrs := by simpa using hu
  have hpm : f ∉ env.userProfile.attrs := by simpa using hp
  have hinf : infer_field_model env f = .error (.fieldError f) := by
    simp [infer_field_model, hum, hpm, hext, hc]
  have href : ∃ e, fieldRef env f = .error e :=
    ⟨.fieldError f, by simp [fieldRef, hinf]⟩
  obtain ⟨e, hlist⟩ := fieldRefList_error_of_mem env f href fields hf
  match hx : extDbTable env with
  | .error e2 => exact ⟨e2, by simp [construct_query, hx]⟩
  | .ok t => exact ⟨e, by simp [construct_query, hx, hlist]⟩

/-- C5: when some requested field belongs to none of the three schemas, the run
raises during query construction: the only recorded event is opening the
cursor — no query is executed, no CSV record is written, and no upload is
attempted. -/
theorem unresolvable_field_aborts_run (w : World) (opts : Opts) (f : String) (c : Cls)
    (hf : f ∈ opts.fields)
    (hu : w.env.userModel.attrs.contains f = false)
    (hp : w.env.userProfile.attrs.contains f = false)
    (hext : get_registration_ext_model w.env = .ok (some c))
    (hc : c.hasField f = false) :
    (handle w opts).1 = [Event.openCursor] ∧ (handle w opts).2.isSome = true := by
  obtain ⟨e, hq⟩ := construct_query_error_of_unresolvable w.env opts.fields f c hf hu hp hext hc
  simp [handle, hq]

/-- Options requesting a field that no schema owns. -/
def optsBadField : Opts :=
  { fields := ["username", "no_such_field"]
    skip_when_null := true
    use_temp_file := false
    aws_access_key_setting := none
    aws_secret_key_setting := none
    aws_profile := none
    s3_bucket_name := "bucket"
    s3_object_name := "key" }

/-- Witness for C5: requesting `no_such_field` under `envOk` ends the run with
only the cursor opened and an uncaught exception. -/
theorem unresolvable_field_aborts_run_witness :
    (handle ⟨envOk, [[[some "alice", some "1"]]], .success⟩ optsBadField).1
        = [Event.openCursor] ∧
    (handle ⟨envOk, [[[some "alice", some "1"]]], .success⟩ optsBadField).2.isSome = true :=
  unresolvable_field_aborts_run ⟨envOk, [[[some "alice", some "1"]]], .success⟩
    optsBadField "no_such_field" (.model extM) (by decide) (by decide) (by decide) rfl
    (by decide)

/-- C7: after a successful query and credential resolution, an upload failure
from missing credentials is caught: the error is logged, the run raises no
uncaught exception, and the run continues to cleanup (both `close` calls
happen).  Every other upload failure propagates as an uncaught exception and
aborts the run before the `close` calls. -/
theorem upload_failure_paths (w : World) (opts : Opts) (q : String)
    (hq : construct_query w.env opts.fields = .ok q)
    (ha : ∃ a, resolveSetting w.env opts.aws_access_key_setting = .ok a)
    (hs : ∃ b, resolveSetting w.env opts.aws_secret_key_setting = .ok b) :
    (w.uploadOutcome = .noCredentials →
      (handle w opts).2 = none ∧
      Event.logCredentialsError ∈ (handle w opts).1 ∧
      Event.closeText ∈ (handle w opts).1 ∧
      Event.closeBinary ∈ (handle w opts).1) ∧
    (w.uploadOutcome = .otherFailure →
      (handle w opts).2 = some .uploadError ∧
      Event.closeText ∉ (handle w opts).1 ∧
      Event.closeBinary ∉ (handle w opts).1) := by
  obtain ⟨a, ha⟩ := ha
  obtain ⟨b, hs⟩ := hs
  constructor
  · intro hout
    simp [handle, hq, ha, hs, hout]
  · intro hout
    simp [handle, hq, ha, hs, hout]

/-- Witness for C7 at concrete runs: a credentials failure is logged and still
cleaned up; any other upload failure leaves an uncaught exception and skips the
`close` calls. -/
theorem upload_failure_paths_witness :
    ((handle ⟨envOk, [[[some "alice", some "1"]]], .noCredentials⟩ optsBase).2 = none ∧
     Event.logCredentialsError
        ∈ (handle ⟨envOk, [[[some "alice", some "1"]]], .noCredentials⟩ optsBase).1 ∧
     Event.closeText
        ∈ (handle ⟨envOk, [[[some "alice", some "1"]]], .noCredentials⟩ optsBase).1 ∧
     Event.closeBinary
        ∈ (handle ⟨envOk, [[[some "alice", some "1"]]], .noCredentials⟩ optsBase).1) ∧
    ((handle ⟨envOk, [[[some "alice", some "1"]]], .otherFailure⟩ optsBase).2
        = some .uploadError ∧
     Event.closeText
        ∉ (handle ⟨envOk, [[[some "alice", some "1"]]], .otherFailure⟩ optsBase).1 ∧
     Event.closeBinary
        ∉ (handle ⟨envOk, [[[some "alice", some "1"]]], .otherFailure⟩ optsBase).1) :=
  ⟨(upload_failure_paths ⟨envOk, [[[some "alice", some "1"]]], .noCredentials⟩ optsBase _
      rfl ⟨none, rfl⟩ ⟨none, rfl⟩).1 rfl,
   (upload_failure_paths ⟨envOk, [[[some "alice", some "1"]]], .otherFailure⟩ optsBase _
      rfl ⟨none, rfl⟩ ⟨none, rfl⟩).2 rfl⟩

/-- C8 counterexample: a run whose upload fails with a non-credentials error did
create the sink (the header was written) yet never reaches either `close` call:
closure is NOT guaranteed on every failing path. -/
theorem cleanup_skipped_on_upload_failure :
    Event.writeHeader optsBase.fields
        ∈ (handle ⟨envOk, [[[some "alice", some "1"]]], .otherFailure⟩ optsBase).1 ∧
    Event.closeText
        ∉ (handle ⟨envOk, [[[some "alice", some "1"]]], .otherFailure⟩ optsBase).1 ∧
    Event.closeBinary
        ∉ (handle ⟨envOk, [[[some "alice", some "1"]]], .otherFailure⟩ optsBase).1 := by
  decide

/-- C8 amended: the text encoder and the byte sink are closed exactly on the runs
that finish without an uncaught exception — success, or an upload failure from
missing credentials (the only caught error).  On every other failing path the
`close` calls are skipped (there is no scoped resource release in the code). -/
theorem cleanup_iff_run_completes (w : World) (opts : Opts) :
    (Event.closeText ∈ (handle w opts).1 ↔ (handle w opts).2 = none) ∧
    (Event.closeBinary ∈ (handle w opts).1 ↔ (handle w opts).2 = none) := by
  cases hq : construct_query w.env opts.fields with
  | error e => simp [handle, hq]
  | ok q =>
    cases ha : resolveSetting w.env opts.aws_access_key_setting with
    | error e => simp [handle, hq, ha]
    | ok a =>
      cases hs : resolveSetting w.env opts.aws_secret_key_setting with
      | error e => simp [handle, hq, ha, hs]
      | ok b =>
        cases ho : w.uploadOutcome <;> simp [handle, hq, ha, hs, ho]
